import Mathlib

/-!
Verification of the query time-normalization and metric-shaping pipeline of the
Akamai GTM Grafana datasource plugin.

Timestamps are modelled as `Int` nanoseconds (Go `time.Time` / `time.Duration`
both count nanoseconds; `time.Time.Round` works on the absolute nanosecond
count since the zero time, and since the model's epoch differs from Go's zero
time by a whole number of hours, rounding to 5-minute or 1-hour boundaries is
unaffected by the choice of epoch).
-/

namespace Gtm

/-- One minute in nanoseconds (Go `time.Minute`). -/
def minuteNs : Int := 60 * 1000000000

/-- One hour in nanoseconds (Go `time.Hour`). -/
def hourNs : Int := 3600 * 1000000000

/-- Go constant `FOUR_WEEKS = 4 * 7 * 24` (four weeks as hours), pkg/gtm.go:40. -/
def FOUR_WEEKS : Nat := 4 * 7 * 24

/-- Go constant `NINETY_DAYS = 90 * 24 * time.Hour`, pkg/gtm.go:41. -/
def NINETY_DAYS : Int := 90 * 24 * hourNs

/-- Go `type Interval string`, pkg/gtm.go:43. -/
abbrev Interval := String

/-- Go constant `HOUR Interval = "HOUR"`, pkg/gtm.go:46. -/
def HOUR : Interval := "HOUR"

/-- Go constant `FIVE_MINUTES = "FIVE_MINUTES"`, pkg/gtm.go:47. -/
def FIVE_MINUTES : Interval := "FIVE_MINUTES"

/-- Embeds `calculateInterval` (pkg/gtm.go:50-64).  The Go code computes
`timeRangeHours := uint(to.Sub(from).Hours())`: the float64 hour count is
truncated toward zero.  For `fromT ≤ toT` this equals floor division of the
nanosecond difference by one hour, which is how it is modelled here (`Int`
division in Lean is Euclidean and agrees with truncation on nonnegative
arguments; the Go conversion of a negative float to `uint` is
implementation-defined, so the model is only claimed faithful for
`fromT ≤ toT`). -/
def calculateInterval (fromT toT : Int) (maxDataPoints : Nat) : Interval :=
  -- Must use HOUR interval for time ranges over 4 weeks.
  let timeRangeHours : Nat := ((toT - fromT) / hourNs).toNat
  if timeRangeHours > FOUR_WEEKS then HOUR
  -- If there are enough 1-hour datapoints to fill the graph then use HOUR
  else if timeRangeHours ≥ maxDataPoints then HOUR
  -- Else use FIVE_MINUTES
  else FIVE_MINUTES

/-- Embeds Go `time.Time.Round(d)`: round to the nearest multiple of `d`,
halfway values rounding up; `d ≤ 0` returns the time unchanged.  Go computes
the remainder `r ∈ [0, d)` of the absolute time by `d` and returns `t - r`
when `r + r < d`, else `t + (d - r)`; Lean's `%` on `Int` is Euclidean and
also yields `r ∈ [0, d)` for `d > 0`. -/
def goRound (t d : Int) : Int :=
  if d ≤ 0 then t
  else
    let r := t % d
    if r + r < d then t - r else t + (d - r)

/-- Embeds `roundupTimeForInterval` (pkg/gtm.go:67-77).  The Go switch tries
`FIVE_MINUTES`, then `HOUR`, and in the default case logs an error and
returns the time unchanged. -/
def roundupTimeForInterval (t : Int) (interval : Interval) : Int :=
  if interval = FIVE_MINUTES then goRound t (5 * minuteNs)
  else if interval = HOUR then goRound t hourNs
  else t

/-- Embeds `timeBeforeOldestData` (pkg/gtm.go:80-82), Go `t.Before(oldestDataTime)`. -/
def timeBeforeOldestData (t oldestDataTime : Int) : Bool :=
  decide (t < oldestDataTime)

/-- Embeds `limitTimeToOldestData` (pkg/gtm.go:85-90). -/
def limitTimeToOldestData (timeRounded oldestDataTime : Int) : Int :=
  if timeRounded < oldestDataTime then oldestDataTime else timeRounded

/-- Go errors are modelled by their message strings. -/
abbrev GoError := String

/-- Embeds `adjustQueryTimes` (pkg/gtm.go:93-112).  The Go code reads
`time.Now()` internally; the model takes the evaluation time `now` as an
explicit argument.  Returns the (from, to, error) triple exactly as the Go
function does: on failure the rounded times accompany the error. -/
def adjustQueryTimes (now fromT toT : Int) (interval : Interval) :
    Int × Int × Option GoError :=
  let fromRounded := roundupTimeForInterval fromT interval
  let toRounded := roundupTimeForInterval toT interval
  -- Data is available from the OPEN API for 90 days
  let ninetyDaysAgo := roundupTimeForInterval (now - NINETY_DAYS) interval
  -- Is the 'to' (end) time before data is available?  If so, that's an error.
  if timeBeforeOldestData toRounded ninetyDaysAgo then
    (fromRounded, toRounded, some "Time range is before available data")
  else
    -- Limit the 'from' (start) time to when the oldest data is available.
    (limitTimeToOldestData fromRounded ninetyDaysAgo, toRounded, none)

/-- The bucket width, in nanoseconds, that `roundupTimeForInterval` rounds to:
5 minutes for FIVE_MINUTES, 1 hour for HOUR, and 1 (i.e. no rounding) for the
unreachable default branch. -/
def bucketNs (interval : Interval) : Int :=
  if interval = FIVE_MINUTES then 5 * minuteNs
  else if interval = HOUR then hourNs
  else 1

theorem bucketNs_pos (interval : Interval) : 0 < bucketNs interval := by
  unfold bucketNs
  split_ifs <;> norm_num [minuteNs, hourNs]

theorem goRound_one (t : Int) : goRound t 1 = t := by
  simp [goRound]

theorem roundup_eq_goRound (t : Int) (interval : Interval) :
    roundupTimeForInterval t interval = goRound t (bucketNs interval) := by
  unfold roundupTimeForInterval bucketNs
  split_ifs <;> simp [goRound_one]

theorem goRound_dvd (t d : Int) (hd : 0 < d) : d ∣ goRound t d := by
  unfold goRound
  rw [if_neg (by omega)]
  have h1 : d * (t / d) + t % d = t := Int.ediv_add_emod t d
  by_cases h : t % d + t % d < d
  · rw [if_pos h]
    exact ⟨t / d, by linarith⟩
  · rw [if_neg h]
    exact ⟨t / d + 1, by linarith [mul_add d (t / d) 1, mul_one d]⟩

theorem goRound_eq_self (t d : Int) (hd : 0 < d) (hdvd : d ∣ t) :
    goRound t d = t := by
  unfold goRound
  rw [if_neg (by omega)]
  rw [Int.emod_eq_zero_of_dvd hdvd]
  simp [hd]

theorem roundup_idem (t : Int) (interval : Interval) :
    roundupTimeForInterval (roundupTimeForInterval t interval) interval =
      roundupTimeForInterval t interval := by
  rw [roundup_eq_goRound, roundup_eq_goRound]
  exact goRound_eq_self _ _ (bucketNs_pos interval)
    (goRound_dvd _ _ (bucketNs_pos interval))

theorem roundup_dvd (t : Int) (interval : Interval) :
    bucketNs interval ∣ roundupTimeForInterval t interval := by
  rw [roundup_eq_goRound]
  exact goRound_dvd _ _ (bucketNs_pos interval)

theorem timeBeforeOldestData_true_iff (a b : Int) :
    timeBeforeOldestData a b = true ↔ a < b := by
  simp [timeBeforeOldestData]

theorem limitTimeToOldestData_eq_max (r h : Int) :
    limitTimeToOldestData r h = max r h := by
  unfold limitTimeToOldestData
  split_ifs with h1
  · exact (max_eq_right h1.le).symm
  · exact (max_eq_left (not_lt.mp h1)).symm

/-- Closed form of `adjustQueryTimes`. -/
theorem adjustQueryTimes_eq (now fromT toT : Int) (interval : Interval) :
    adjustQueryTimes now fromT toT interval =
      if roundupTimeForInterval toT interval <
          roundupTimeForInterval (now - NINETY_DAYS) interval then
        (roundupTimeForInterval fromT interval, roundupTimeForInterval toT interval,
          some "Time range is before available data")
      else
        (max (roundupTimeForInterval fromT interval)
            (roundupTimeForInterval (now - NINETY_DAYS) interval),
          roundupTimeForInterval toT interval, none) := by
  unfold adjustQueryTimes
  by_cases h : roundupTimeForInterval toT interval <
      roundupTimeForInterval (now - NINETY_DAYS) interval
  · rw [if_pos ((timeBeforeOldestData_true_iff _ _).mpr h), if_pos h]
  · rw [if_neg (fun hc => h ((timeBeforeOldestData_true_iff _ _).mp hc)), if_neg h,
      limitTimeToOldestData_eq_max]

/-- The property claim C1 asserts of `adjustQueryTimes` at a fixed evaluation
time `now`: it fails exactly when the rounded `to` precedes the rounded
retention horizon, and on success returns `(max roundedFrom horizon,
roundedTo)`, both on the interval's boundaries and at or after the horizon. -/
def adjustQueryTimesSpec (now fromT toT : Int) (interval : Interval) : Prop :=
  let fromRounded := roundupTimeForInterval fromT interval
  let toRounded := roundupTimeForInterval toT interval
  let oldestAvailable := roundupTimeForInterval (now - NINETY_DAYS) interval
  let A := adjustQueryTimes now fromT toT interval
  ((A.2.2).isSome ↔ toRounded < oldestAvailable) ∧
  ((A.2.2) = none →
    A.1 = max fromRounded oldestAvailable ∧
    A.2.1 = toRounded ∧
    bucketNs interval ∣ A.1 ∧
    bucketNs interval ∣ A.2.1 ∧
    oldestAvailable ≤ A.1 ∧ oldestAvailable ≤ A.2.1)

/-- C1: for every `from`, `to` and every interval in {FINE, COARSE},
`adjustQueryTimes` fails exactly when the rounded `to` is before the rounded
retention horizon (now − 90 days, rounded with the same boundary rule); on
success it returns `(max(rounded from, horizon), rounded to)`, so both
returned times lie on the interval's boundaries and satisfy
`from ≥ oldestAvailable` and `to ≥ oldestAvailable`. -/
theorem adjustQueryTimes_spec (now fromT toT : Int) (interval : Interval)
    (_hi : interval = HOUR ∨ interval = FIVE_MINUTES) :
    adjustQueryTimesSpec now fromT toT interval := by
  unfold adjustQueryTimesSpec
  rw [adjustQueryTimes_eq]
  set fromRounded := roundupTimeForInterval fromT interval with hfr
  set toRounded := roundupTimeForInterval toT interval with htr
  set oldest := roundupTimeForInterval (now - NINETY_DAYS) interval with hold
  by_cases hlt : toRounded < oldest
  · rw [if_pos hlt]
    exact ⟨by simp [hlt], fun h => by simp at h⟩
  · rw [if_neg hlt]
    refine ⟨by simp [hlt], fun _ => ⟨rfl, rfl, ?_, ?_, le_max_right _ _, not_lt.mp hlt⟩⟩
    · rcases max_choice fromRounded oldest with h | h <;> rw [h]
      · exact hfr ▸ roundup_dvd _ _
      · exact hold ▸ roundup_dvd _ _
    · exact htr ▸ roundup_dvd _ _

theorem adjustQueryTimes_spec_witness :
    ((HOUR : Interval) = HOUR ∨ (HOUR : Interval) = FIVE_MINUTES) ∧
    adjustQueryTimesSpec NINETY_DAYS 0 hourNs HOUR :=
  ⟨Or.inl rfl, adjustQueryTimes_spec NINETY_DAYS 0 hourNs HOUR (Or.inl rfl)⟩

/-- C2 counterexample: a real-valued span of 672.5 hours (which strictly
exceeds 672 hours) with `maxDataPoints = 1000` makes `calculateInterval`
return FIVE_MINUTES, not COARSE (HOUR): the Go code first truncates the span
to 672 whole hours, which fails the `> 672` test, and 672 < 1000 fails the
point-budget test too. -/
theorem calculateInterval_realHours_cex :
    (672 : ℚ) * 3600 * 1000000000 < ((672 * 3600 + 1800) * 1000000000 : ℚ) ∧
    calculateInterval 0 ((672 * 3600 + 1800) * 1000000000) 1000 = FIVE_MINUTES ∧
    FIVE_MINUTES ≠ HOUR := by
  refine ⟨by norm_num, by decide, by decide⟩

/-- C2 (amended): for every pair of timestamps whose span *truncated to whole
hours* strictly exceeds 672, and for every value of `maxDataPoints`,
`calculateInterval` returns COARSE (HOUR).  (The original claim measured the
span as a real-valued duration including fractional hours; the code truncates
to whole hours before the comparison, so a fractional span just above 672
hours can still yield FINE when `maxDataPoints` is large.) -/
theorem calculateInterval_wholeHours_coarse (fromT toT : Int) (maxDataPoints : Nat)
    (h : 672 < ((toT - fromT) / hourNs).toNat) :
    calculateInterval fromT toT maxDataPoints = HOUR := by
  unfold calculateInterval
  rw [if_pos]
  exact h

theorem calculateInterval_wholeHours_coarse_witness :
    672 < (((673 * hourNs - 0) / hourNs).toNat) ∧
    calculateInterval 0 (673 * hourNs) 5000 = HOUR :=
  ⟨by decide, calculateInterval_wholeHours_coarse 0 (673 * hourNs) 5000 (by decide)⟩

/-- C3: for every `from ≤ to` and `maxDataPoints`, `calculateInterval`
returns COARSE when the span truncated to whole hours exceeds 672; otherwise
COARSE when the whole-hours span is at least `maxDataPoints`; otherwise FINE.
The result depends only on the span `to − from` and `maxDataPoints`.  (The
hypothesis `from ≤ to` marks the domain on which the integer model of the Go
float truncation `uint(to.Sub(from).Hours())` is faithful; the Go conversion
of a negative float to `uint` is implementation-defined.) -/
theorem calculateInterval_characterization (fromT toT : Int) (maxDataPoints : Nat)
    (_hle : fromT ≤ toT) :
    (calculateInterval fromT toT maxDataPoints =
      if 672 < ((toT - fromT) / hourNs).toNat then HOUR
      else if maxDataPoints ≤ ((toT - fromT) / hourNs).toNat then HOUR
      else FIVE_MINUTES) ∧
    (∀ fromT' toT' : Int, toT' - fromT' = toT - fromT →
      calculateInterval fromT' toT' maxDataPoints =
        calculateInterval fromT toT maxDataPoints) := by
  constructor
  · rfl
  · intro fromT' toT' hspan
    unfold calculateInterval
    rw [hspan]

theorem calculateInterval_characterization_witness :
    ((0 : Int) ≤ 673 * hourNs) ∧
    ((calculateInterval 0 (673 * hourNs) 100 =
      if 672 < (((673 * hourNs : Int) - 0) / hourNs).toNat then HOUR
      else if 100 ≤ (((673 * hourNs : Int) - 0) / hourNs).toNat then HOUR
      else FIVE_MINUTES) ∧
    (∀ fromT' toT' : Int, toT' - fromT' = 673 * hourNs - 0 →
      calculateInterval fromT' toT' 100 = calculateInterval 0 (673 * hourNs) 100)) :=
  ⟨by decide, calculateInterval_characterization 0 (673 * hourNs) 100 (by decide)⟩

/-- The property claim C7 asserts: re-applying `adjustQueryTimes` (with the
same `now` and interval) to a pair it itself produced returns that pair
unchanged, with no error. -/
def adjustQueryTimesIdem (now fromT toT : Int) (interval : Interval) : Prop :=
  let A := adjustQueryTimes now fromT toT interval
  adjustQueryTimes now A.1 A.2.1 interval = A

/-- C7: for a fixed evaluation-time `now`, window alignment is idempotent:
applying `adjustQueryTimes` to a (from, to) pair it itself produced (with the
same interval) returns that pair unchanged and does not fail. -/
theorem adjustQueryTimes_idempotent (now fromT toT : Int) (interval : Interval)
    (hok : (adjustQueryTimes now fromT toT interval).2.2 = none) :
    adjustQueryTimesIdem now fromT toT interval := by
  unfold adjustQueryTimesIdem
  dsimp only
  rw [adjustQueryTimes_eq] at hok
  by_cases hlt : roundupTimeForInterval toT interval <
      roundupTimeForInterval (now - NINETY_DAYS) interval
  · rw [if_pos hlt] at hok
    simp at hok
  · have hA : adjustQueryTimes now fromT toT interval =
        (max (roundupTimeForInterval fromT interval)
            (roundupTimeForInterval (now - NINETY_DAYS) interval),
          roundupTimeForInterval toT interval, none) := by
      rw [adjustQueryTimes_eq, if_neg hlt]
    rw [hA]
    dsimp only
    rw [adjustQueryTimes_eq]
    have hto : roundupTimeForInterval (roundupTimeForInterval toT interval) interval =
        roundupTimeForInterval toT interval := roundup_idem _ _
    have hfrom : roundupTimeForInterval
        (max (roundupTimeForInterval fromT interval)
          (roundupTimeForInterval (now - NINETY_DAYS) interval)) interval =
        max (roundupTimeForInterval fromT interval)
          (roundupTimeForInterval (now - NINETY_DAYS) interval) := by
      rcases max_choice (roundupTimeForInterval fromT interval)
        (roundupTimeForInterval (now - NINETY_DAYS) interval) with h | h <;> rw [h] <;>
        exact roundup_idem _ _
    rw [hto, hfrom, if_neg hlt, max_assoc, max_self]

theorem adjustQueryTimes_idempotent_witness :
    (adjustQueryTimes NINETY_DAYS (-hourNs) 0 HOUR).2.2 = none ∧
    adjustQueryTimesIdem NINETY_DAYS (-hourNs) 0 HOUR :=
  ⟨by decide, adjustQueryTimes_idempotent NINETY_DAYS (-hourNs) 0 HOUR (by decide)⟩

/-- Embeds Go `strings.Split(s, ",")` on character lists: split around every
comma; the empty input yields one empty segment, exactly as Go does. -/
def splitComma : List Char → List (List Char)
  | [] => [[]]
  | c :: cs =>
    let rest := splitComma cs
    if c = ',' then [] :: rest
    else
      match rest with
      | [] => [[c]]
      | g :: gs => (c :: g) :: gs

/-- Embeds `zonesListFromZones` (src/unnamed/part_000:35-46).  The Go code
removes every space character with `strings.Replace(zoneNames, " ", "", -1)`
(modelled as filtering out `' '`), splits on commas, and keeps only the
nonempty segments in order. -/
def zonesListFromZones (zoneNames : String) : List String :=
  let noSpaces := zoneNames.data.filter (fun c => c ≠ ' ')
  let rawList := splitComma noSpaces
  ((rawList.filter (fun z => z.length > 0)).map (fun z => String.mk z))

/-- Modelled from the spec: the zone-list parser the claim describes, which
strips all whitespace (not just spaces) before splitting on commas and
dropping empty segments.  Used only to compare the claim's wording with the
code. -/
def zoneListStripAllWhitespace (zoneNames : String) : List String :=
  let noWhite := zoneNames.data.filter (fun c => ¬ c.isWhitespace)
  ((splitComma noWhite).filter (fun z => z.length > 0)).map (fun z => String.mk z)

theorem splitComma_ne_nil (l : List Char) : splitComma l ≠ [] := by
  cases l with
  | nil => simp [splitComma]
  | cons c cs =>
    unfold splitComma
    by_cases h : c = ','
    · simp [h]
    · simp only [h, if_false]
      cases splitComma cs <;> simp

theorem splitComma_flatten (l : List Char) :
    (splitComma l).flatten = l.filter (fun c => c ≠ ',') := by
  induction l with
  | nil => simp [splitComma]
  | cons c cs ih =>
    unfold splitComma
    by_cases h : c = ','
    · simp [h, ih]
    · simp only [h, if_false]
      rcases hg : splitComma cs with _ | ⟨g, gs⟩
      · exact absurd hg (splitComma_ne_nil cs)
      · rw [hg] at ih
        simp only [List.flatten_cons] at ih ⊢
        simp only [ne_eq, decide_not] at ih ⊢
        simp [h, ih]

theorem flatten_filter_nonempty (L : List (List Char)) :
    (L.filter (fun z => z.length > 0)).flatten = L.flatten := by
  induction L with
  | nil => rfl
  | cons g gs ih =>
    by_cases h : g.length > 0
    · simp [List.filter_cons, h, ih]
    · have hg : g = [] := List.length_eq_zero.mp (by omega)
      simp [List.filter_cons, hg, ih]

/-- C6 counterexample: the claim says the parser strips *all* whitespace, but
the code removes only space characters; on the input containing a tab the
code keeps the tab while the claim's parser would strip it, so the two
disagree. -/
theorem zonesListFromZones_whitespace_cex :
    zonesListFromZones "\ta" = ["\ta"] ∧
    zoneListStripAllWhitespace "\ta" = ["a"] ∧
    zonesListFromZones "\ta" ≠ zoneListStripAllWhitespace "\ta" := by
  refine ⟨by decide, by decide, by decide⟩

/-- C6 (amended): for every input string the zone-list parser strips all
*space* characters (U+0020; other whitespace such as tabs is kept), splits
the remainder on commas, drops empty segments, and preserves the order of the
surviving segments — captured by: concatenating the output segments yields
exactly the input's characters minus spaces and commas, in order, and every
output segment is nonempty; in particular " a, b ,,c " maps to
["a","b","c"] and "" maps to the empty list. -/
theorem zonesListFromZones_spaces (s : String) :
    (((zonesListFromZones s).map String.data).flatten =
      (s.data.filter (fun c => c ≠ ' ')).filter (fun c => c ≠ ',')) ∧
    (∀ z ∈ zonesListFromZones s, z ≠ "") ∧
    zonesListFromZones " a, b ,,c " = ["a", "b", "c"] ∧
    zonesListFromZones "" = [] := by
  refine ⟨?_, ?_, by decide, by decide⟩
  · unfold zonesListFromZones
    dsimp only
    rw [List.map_map]
    have hmk : (String.data ∘ fun z => String.mk z) = id := by
      funext z
      rfl
    rw [hmk, List.map_id, flatten_filter_nonempty, splitComma_flatten]
  · intro z hz
    unfold zonesListFromZones at hz
    dsimp only at hz
    rw [List.mem_map] at hz
    obtain ⟨g, hg, rfl⟩ := hz
    rw [List.mem_filter] at hg
    intro hcon
    have : g = [] := by
      have := congrArg String.data hcon
      simpa using this
    rw [this] at hg
    simp at hg

theorem zonesListFromZones_spaces_witness :
    ((zonesListFromZones " a, b ,,c ").map String.data).flatten =
      ((" a, b ,,c ".data.filter (fun c => c ≠ ' ')).filter (fun c => c ≠ ',')) ∧
    ("a" ∈ zonesListFromZones " a, b ,,c " → "a" ≠ "") :=
  ⟨(zonesListFromZones_spaces " a, b ,,c ").1,
    fun h => (zonesListFromZones_spaces " a, b ,,c ").2.1 "a" h⟩

/-- Embeds Go `Datum` (pkg/gtm.go:162-165): one row of the report response;
both fields arrive as strings. -/
structure Datum where
  StartDateTime : String
  Hits : String
deriving DecidableEq

/-- Embeds Go `Metadata` (pkg/gtm.go:167-178). -/
structure Metadata where
  AvailableDataEnds : String
  End : String
  Interval : String
  Name : String
  ObjectIds : List String
  ObjectType : String
  OutputType : String
  RowCount : Int
  Start : String
  Version : String
deriving DecidableEq

/-- Embeds Go `GtmDnsTrafficAllPropertiesRspDto` (pkg/gtm.go:180-184). -/
structure GtmDnsTrafficAllPropertiesRspDto where
  Data : List Datum
  Metadata : Metadata
deriving DecidableEq

/-- Embeds Go `strconv.ParseInt(s, 10, 64)`: an optional sign followed by at
least one decimal digit (base 10 admits no underscores), failing when the
value overflows a signed 64-bit integer (the Go call returns a non-nil error
in that case, which the caller treats as failure). -/
def strconvParseInt (s : String) : Option Int :=
  match s.data with
  | [] => none
  | c :: cs =>
    let (sign, digits) : Int × List Char :=
      if c = '-' then (-1, cs) else if c = '+' then (1, cs) else (1, c :: cs)
    if digits.isEmpty then none
    else if digits.all (fun d => d.isDigit) then
      let n : Nat := digits.foldl (fun acc d => acc * 10 + (d.toNat - 48)) 0
      let v : Int := sign * n
      if -(2 ^ 63) ≤ v ∧ v ≤ 2 ^ 63 - 1 then some v else none
    else none

/-- Embeds the decimal syntax of Go `strconv.ParseFloat(s, 64)`: an optional
sign, a mantissa with at least one digit (integer part, fractional part or
both), and an optional exponent.  Values are modelled as rationals, so the
IEEE-754 rounding of accepted values and the special forms (inf, nan, hex
mantissas) are outside the model; every input the reporting API's `hits`
field can carry is either of this decimal form or a non-numeric sentinel such
as "N/A", which fails the parse exactly as in Go. -/
def strconvParseFloat (s : String) : Option ℚ :=
  let p := s.data
  let (sgn, p1) : ℚ × List Char :=
    match p with
    | '-' :: r => (-1, r)
    | '+' :: r => (1, r)
    | r => (1, r)
  let intPart := p1.takeWhile (fun c => c.isDigit)
  let p2 := p1.dropWhile (fun c => c.isDigit)
  let (fracPart, p3) : List Char × List Char :=
    match p2 with
    | '.' :: r => (r.takeWhile (fun c => c.isDigit), r.dropWhile (fun c => c.isDigit))
    | r => ([], r)
  if intPart.isEmpty ∧ fracPart.isEmpty then none
  else
    let digitsVal : List Char → Nat := fun ds =>
      ds.foldl (fun acc d => acc * 10 + (d.toNat - 48)) 0
    let mant : ℚ := (digitsVal intPart : ℚ) + (digitsVal fracPart : ℚ) / (10 ^ fracPart.length)
    match p3 with
    | [] => some (sgn * mant)
    | e :: rest =>
      if e = 'e' ∨ e = 'E' then
        let (epos, r2) : Bool × List Char :=
          match rest with
          | '+' :: r => (true, r)
          | '-' :: r => (false, r)
          | r => (true, r)
        if ¬ r2.isEmpty ∧ r2.all (fun d => d.isDigit) then
          some (if epos then sgn * mant * 10 ^ digitsVal r2
                else sgn * mant / 10 ^ digitsVal r2)
        else none
      else none

/-- Maps the rows of a successful report response to the two parallel slices
(`sampletime`, `hitspersec`) built by the loop in `query`
(src/unnamed/part_000:192-203): the start time must parse as int64
milliseconds (failure aborts with the parse error, modelled by the offending
field text), the sample time is `unixms/1000` seconds (Go truncating
division), and the hits value falls back to 0 when `strconv.ParseFloat`
fails, its error being ignored. -/
def mapReportRows : List Datum → Except GoError (List Int × List ℚ)
  | [] => .ok ([], [])
  | datum :: rest =>
    match strconvParseInt datum.StartDateTime with
    | none => .error ("Error parsing time: " ++ datum.StartDateTime)
    | some unixms =>
      match mapReportRows rest with
      | .error e => .error e
      | .ok (sampletime, hitspersec) =>
        .ok (Int.tdiv unixms 1000 :: sampletime,
          ((strconvParseFloat datum.Hits).getD 0) :: hitspersec)

/-- Embeds Go `dataQueryJson` (src/unnamed/part_000:57-63). -/
structure dataQueryJson where
  DataSourceId : Nat
  IntervalMs : Nat
  MaxDataPoints : Nat
  ZoneNames : String
  MetricName : String
deriving DecidableEq

/-- A Grafana data frame as built by `query`: the "time" field and one value
field labelled with the metric name. -/
structure Frame where
  name : String
  times : List Int
  values : List ℚ
deriving DecidableEq

/-- A per-query result slot (Grafana `backend.DataResponse`): an optional
error and the attached frames. -/
structure DataResponse where
  error : Option GoError
  frames : List Frame
deriving DecidableEq

/-- The response-mapping tail of `query` (src/unnamed/part_000:181-223),
taking the decoded OPEN API response: on a time-parse failure the error is
recorded and no frame is attached (the Go code returns before the frame is
created); otherwise one frame is attached, labelled with the configured
metric name or the generated `"<zoneNames> hits"` default. -/
def queryMapResponse (dqj : dataQueryJson)
    (openApiRspDto : GtmDnsTrafficAllPropertiesRspDto) : DataResponse :=
  match mapReportRows openApiRspDto.Data with
  | .error e => { error := some e, frames := [] }
  | .ok (sampletime, hitspersec) =>
    let metricName :=
      if dqj.MetricName.length = 0 then dqj.ZoneNames ++ " hits" else dqj.MetricName
    { error := none,
      frames := [{ name := metricName, times := sampletime, values := hitspersec }] }

theorem mapReportRows_error_of_badTime (rows : List Datum) (d : Datum)
    (hmem : d ∈ rows) (hbad : strconvParseInt d.StartDateTime = none) :
    ∃ e, mapReportRows rows = .error e := by
  induction rows with
  | nil => cases hmem
  | cons p ps ih =>
    rcases List.mem_cons.mp hmem with rfl | hmem'
    · exact ⟨_, by rw [mapReportRows, hbad]⟩
    · cases hp : strconvParseInt p.StartDateTime with
      | none => exact ⟨_, by rw [mapReportRows, hp]⟩
      | some v =>
        obtain ⟨e, he⟩ := ih hmem'
        refine ⟨e, ?_⟩
        rw [mapReportRows, hp, he]

/-- C4: for every successful API response containing a row whose
`startdatetime` field does not parse as an integer, the query-mapping step
fails the whole query with an error and emits no series at all (no frame is
attached to the query's result), regardless of how many earlier rows parsed
correctly. -/
theorem queryMap_time_parse_failure (dqj : dataQueryJson)
    (rsp : GtmDnsTrafficAllPropertiesRspDto) (d : Datum)
    (hmem : d ∈ rsp.Data) (hbad : strconvParseInt d.StartDateTime = none) :
    (queryMapResponse dqj rsp).error.isSome = true ∧
    (queryMapResponse dqj rsp).frames = [] := by
  obtain ⟨e, he⟩ := mapReportRows_error_of_badTime rsp.Data d hmem hbad
  unfold queryMapResponse
  rw [he]
  exact ⟨rfl, rfl⟩

theorem mapReportRows_ok (rows : List Datum)
    (h : ∀ d ∈ rows, (strconvParseInt d.StartDateTime).isSome = true) :
    ∃ sampletime, mapReportRows rows =
        .ok (sampletime, rows.map (fun d => (strconvParseFloat d.Hits).getD 0)) ∧
      sampletime.length = rows.length := by
  induction rows with
  | nil => exact ⟨[], rfl, rfl⟩
  | cons p ps ih =>
    obtain ⟨v, hv⟩ :=
      Option.isSome_iff_exists.mp (h p (List.mem_cons_self p ps))
    obtain ⟨ts, hts, hlen⟩ := ih (fun d hd => h d (List.mem_cons_of_mem p hd))
    refine ⟨Int.tdiv v 1000 :: ts, ?_, by simp [hlen]⟩
    rw [mapReportRows, hv, hts]
    rfl

/-- C5: for every response whose rows all carry parsable timestamps, a row
whose `hits` field fails to parse as a floating-point number (for example the
literal "N/A") contributes the value 0 to the mapped series, the query does
not fail, and every row is present in the output series: the single emitted
frame's values are exactly the rows' hits, in order, with parse failures
replaced by 0, so the series length equals the response row count. -/
theorem queryMap_hits_default_zero (dqj : dataQueryJson)
    (rsp : GtmDnsTrafficAllPropertiesRspDto)
    (h : ∀ d ∈ rsp.Data, (strconvParseInt d.StartDateTime).isSome = true) :
    (queryMapResponse dqj rsp).error = none ∧
    ∃ f, (queryMapResponse dqj rsp).frames = [f] ∧
      f.values = rsp.Data.map (fun d =>
        match strconvParseFloat d.Hits with
        | some v => v
        | none => 0) ∧
      f.values.length = rsp.Data.length := by
  obtain ⟨ts, hts, _⟩ := mapReportRows_ok rsp.Data h
  unfold queryMapResponse
  rw [hts]
  have hfun : (fun d : Datum => (strconvParseFloat d.Hits).getD 0) =
      (fun d : Datum =>
        match strconvParseFloat d.Hits with
        | some v => v
        | none => 0) := by
    funext d
    cases strconvParseFloat d.Hits <;> rfl
  refine ⟨rfl, _, rfl, ?_, by simp⟩
  rw [hfun]

theorem queryMap_time_parse_failure_witness :
    ((⟨"xyz", "1"⟩ : Datum) ∈
      (⟨[⟨"1700000000000", "42.5"⟩, ⟨"xyz", "1"⟩],
        ⟨"", "", "", "", [], "", "", 2, "", ""⟩⟩ :
        GtmDnsTrafficAllPropertiesRspDto).Data) ∧
    strconvParseInt "xyz" = none ∧
    ((queryMapResponse ⟨1, 1000, 100, "example.com", ""⟩
        ⟨[⟨"1700000000000", "42.5"⟩, ⟨"xyz", "1"⟩],
          ⟨"", "", "", "", [], "", "", 2, "", ""⟩⟩).error.isSome = true ∧
      (queryMapResponse ⟨1, 1000, 100, "example.com", ""⟩
        ⟨[⟨"1700000000000", "42.5"⟩, ⟨"xyz", "1"⟩],
          ⟨"", "", "", "", [], "", "", 2, "", ""⟩⟩).frames = []) :=
  ⟨by decide, by decide,
    queryMap_time_parse_failure ⟨1, 1000, 100, "example.com", ""⟩
      ⟨[⟨"1700000000000", "42.5"⟩, ⟨"xyz", "1"⟩],
        ⟨"", "", "", "", [], "", "", 2, "", ""⟩⟩
      ⟨"xyz", "1"⟩ (by decide) (by decide)⟩

theorem queryMap_hits_default_zero_witness :
    (∀ d ∈ (⟨[⟨"1700000000000", "42.5"⟩, ⟨"1700000300000", "N/A"⟩],
        ⟨"", "", "", "", [], "", "", 2, "", ""⟩⟩ :
        GtmDnsTrafficAllPropertiesRspDto).Data,
      (strconvParseInt d.StartDateTime).isSome = true) ∧
    ((queryMapResponse ⟨1, 1000, 100, "example.com", ""⟩
        ⟨[⟨"1700000000000", "42.5"⟩, ⟨"1700000300000", "N/A"⟩],
          ⟨"", "", "", "", [], "", "", 2, "", ""⟩⟩).error = none ∧
      ∃ f, (queryMapResponse ⟨1, 1000, 100, "example.com", ""⟩
          ⟨[⟨"1700000000000", "42.5"⟩, ⟨"1700000300000", "N/A"⟩],
            ⟨"", "", "", "", [], "", "", 2, "", ""⟩⟩).frames = [f] ∧
        f.values = ([⟨"1700000000000", "42.5"⟩, ⟨"1700000300000", "N/A"⟩] :
            List Datum).map (fun d =>
          match strconvParseFloat d.Hits with
          | some v => v
          | none => 0) ∧
        f.values.length = ([⟨"1700000000000", "42.5"⟩, ⟨"1700000300000", "N/A"⟩] :
            List Datum).length) :=
  ⟨by decide,
    queryMap_hits_default_zero ⟨1, 1000, 100, "example.com", ""⟩
      ⟨[⟨"1700000000000", "42.5"⟩, ⟨"1700000300000", "N/A"⟩],
        ⟨"", "", "", "", [], "", "", 2, "", ""⟩⟩ (by decide)⟩

/-- Embeds the fields of Grafana `backend.DataQuery` that `QueryData` and
`query` consume: the unique `RefID`, the time range, and the query JSON
(already decoded here as `dataQueryJson`). -/
structure DataQuery where
  RefID : String
  TimeRangeFrom : Int
  TimeRangeTo : Int
  JSON : dataQueryJson
deriving DecidableEq

/-- The loop of `QueryData` (src/unnamed/part_000:118-124): each query is run
and its result stored in the response map under its RefID
(`response.Responses[q.RefID] = res`).  The per-query step `td.query`
performs a network call, so it is abstracted as the function `queryFn`; the
response map is modelled as a partial function from RefID to result slot. -/
def QueryDataLoop (queryFn : DataQuery → DataResponse) :
    List DataQuery → (String → Option DataResponse) → (String → Option DataResponse)
  | [], responses => responses
  | q :: qs, responses =>
    QueryDataLoop queryFn qs
      (fun k => if k = q.RefID then some (queryFn q) else responses k)

/-- Embeds `QueryData` (src/unnamed/part_000:103-127): starts from an empty
response map and runs the loop over the batch. -/
def QueryData (queryFn : DataQuery → DataResponse) (queries : List DataQuery) :
    String → Option DataResponse :=
  QueryDataLoop queryFn queries (fun _ => none)

theorem queryDataLoop_not_mem (queryFn : DataQuery → DataResponse)
    (qs : List DataQuery) (acc : String → Option DataResponse) (k : String)
    (h : k ∉ qs.map DataQuery.RefID) :
    QueryDataLoop queryFn qs acc k = acc k := by
  induction qs generalizing acc with
  | nil => rfl
  | cons q qs ih =>
    rw [List.map_cons, List.mem_cons, not_or] at h
    rw [QueryDataLoop, ih _ h.2, if_neg h.1]

theorem queryDataLoop_mem (queryFn : DataQuery → DataResponse)
    (qs : List DataQuery) (acc : String → Option DataResponse) (q : DataQuery)
    (hq : q ∈ qs) (hnd : (qs.map DataQuery.RefID).Nodup) :
    QueryDataLoop queryFn qs acc q.RefID = some (queryFn q) := by
  induction qs generalizing acc with
  | nil => cases hq
  | cons p ps ih =>
    rw [List.map_cons, List.nodup_cons] at hnd
    rcases List.mem_cons.mp hq with rfl | hq'
    · rw [QueryDataLoop,
        queryDataLoop_not_mem queryFn ps _ _ hnd.1, if_pos rfl]
    · exact ih _ hq' hnd.2

theorem queryDataLoop_isSome_iff (queryFn : DataQuery → DataResponse)
    (qs : List DataQuery) (acc : String → Option DataResponse) (k : String) :
    (QueryDataLoop queryFn qs acc k).isSome = true ↔
      k ∈ qs.map DataQuery.RefID ∨ (acc k).isSome = true := by
  induction qs generalizing acc with
  | nil => simp [QueryDataLoop]
  | cons q qs ih =>
    rw [QueryDataLoop, ih]
    by_cases hk : k = q.RefID
    · simp [hk]
    · simp [hk]

/-- C8: for every batch of queries (with the distinct RefIDs the Grafana
interface guarantees — the source comments call RefID "a unique identifier"),
each query is processed independently: its result slot holds exactly the
outcome of running that query alone (so a failure in one query is recorded
only in that query's slot and cannot affect a sibling's), every query in the
batch produces its own slot, and the response map holds a slot exactly for
the batch's RefIDs — one slot per query. -/
theorem queryData_per_query_isolation (queryFn : DataQuery → DataResponse)
    (queries : List DataQuery) (hnd : (queries.map DataQuery.RefID).Nodup) :
    (∀ q ∈ queries, QueryData queryFn queries q.RefID = some (queryFn q)) ∧
    (∀ k, (QueryData queryFn queries k).isSome = true ↔
      k ∈ queries.map DataQuery.RefID) := by
  constructor
  · intro q hq
    exact queryDataLoop_mem queryFn queries _ q hq hnd
  · intro k
    rw [QueryData, queryDataLoop_isSome_iff]
    simp

/-- A concrete per-query step for the C8 witness: query "A" fails, every
other query succeeds with an empty frame. -/
def witnessQueryFn (q : DataQuery) : DataResponse :=
  if q.RefID = "A" then { error := some "Enter zone names", frames := [] }
  else { error := none, frames := [{ name := "zones hits", times := [], values := [] }] }

def witnessQueryA : DataQuery := ⟨"A", 0, hourNs, ⟨1, 1000, 100, "", ""⟩⟩

def witnessQueryB : DataQuery := ⟨"B", 0, hourNs, ⟨1, 1000, 100, "example.com", ""⟩⟩

theorem queryData_per_query_isolation_witness :
    ([witnessQueryA, witnessQueryB].map DataQuery.RefID).Nodup ∧
    QueryData witnessQueryFn [witnessQueryA, witnessQueryB] "B" =
      some (witnessQueryFn witnessQueryB) :=
  ⟨by decide,
    (queryData_per_query_isolation witnessQueryFn [witnessQueryA, witnessQueryB]
        (by decide)).1 witnessQueryB (by simp)⟩

/-- Embeds Go `Error` (pkg/gtm.go:188-191): one entry of an OPEN API error
response. -/
structure ApiError where
  Title : String
  Type' : String
deriving DecidableEq

/-- Embeds Go `OpenApiErrorRspDto` (pkg/gtm.go:193-198). -/
structure OpenApiErrorRspDto where
  Errors : List ApiError
  Instance : String
  Title : String
  Type' : String
deriving DecidableEq

/-- Grafana `backend.HealthStatus`. -/
inductive HealthStatus where
  | ok
  | error
  | unknown
deriving DecidableEq

/-- The error-message extraction of `gtmOpenApiQuery` on a non-200 response
(pkg/gtm.go:299-309): when the body decodes as `OpenApiErrorRspDto` the code
reads `rspDto.Errors[0].Title` with no emptiness check — the partial lookup
`Errors[0]?` models the unchecked index, `none` standing for the
out-of-range panic;
when decoding fails, the HTTP status line is the message. -/
def gtmOpenApiQueryErrMsg (status : String)
    (decoded : Option OpenApiErrorRspDto) : Option GoError :=
  match decoded with
  | none => some status
  | some rspDto => (rspDto.Errors[0]?).map (fun e => e.Title)

/-- The response handling of `gtmOpenApiHealthCheck` after the GET returns
(pkg/gtm.go:233-265), as a function of the status code and the decoded body
(`none` when JSON decoding fails).  Both the non-403 branch and the 403
branch read `rspDto.Errors[0].Title` with no emptiness check; the partial
lookup `Errors[0]?` models the unchecked index and the result `none` stands
for the out-of-range panic. -/
def gtmOpenApiHealthCheckRsp (statusCode : Nat) (status : String)
    (decoded : Option OpenApiErrorRspDto) : Option (String × HealthStatus) :=
  if statusCode ≠ 403 then
    match decoded with
    | none => some ("Unexpected status code. Datasource failed: " ++ status, .error)
    | some rspDto =>
      (rspDto.Errors[0]?).map (fun e =>
        ("Unexpected status code. Datasource failed: " ++ e.Title, .error))
  else
    match decoded with
    | none => some ("Unexpected response format. Datasource failed: " ++ status, .error)
    | some rspDto =>
      (rspDto.Errors[0]?).map (fun e =>
        if e.Title ≠ "Some of the requested objects are unauthorized: [-fake-]" then
          ("Unexpected error type. Datasource failed: " ++ e.Title, .error)
        else ("Data source is working", .ok))

/-- C10 (implicit): for every non-success response whose body decodes as the
structured error DTO, both the query path and the health check read the title
of the first entry of the decoded `Errors` list without checking that the
list is non-empty: the query path's message is literally `Errors.head?`'s
title, and on an empty `Errors` list both accesses come out `none` (the
modelled index-out-of-range panic) — they are total exactly when the decoded
body holds at least one error entry. -/
theorem first_error_title_access (statusCode : Nat) (status : String)
    (rspDto : OpenApiErrorRspDto) :
    (gtmOpenApiQueryErrMsg status (some rspDto) =
      rspDto.Errors.head?.map (fun e => e.Title)) ∧
    ((gtmOpenApiQueryErrMsg status (some rspDto)).isSome = true ↔
      rspDto.Errors ≠ []) ∧
    ((gtmOpenApiHealthCheckRsp statusCode status (some rspDto)).isSome = true ↔
      rspDto.Errors ≠ []) := by
  obtain ⟨errs, inst, title, ty⟩ := rspDto
  refine ⟨?_, ?_, ?_⟩
  · cases errs <;> simp [gtmOpenApiQueryErrMsg]
  · cases errs <;> simp [gtmOpenApiQueryErrMsg]
  · unfold gtmOpenApiHealthCheckRsp
    by_cases hs : statusCode ≠ 403
    · rw [if_pos hs]
      cases errs <;> simp
    · rw [if_neg hs]
      cases errs <;> simp

/-- Embeds Go `GtmDnsTrafficAllPropertiesReqDto` (pkg/gtm.go:154-158). -/
structure GtmDnsTrafficAllPropertiesReqDto where
  ObjectType : String
  ObjectIds : List String
  Metrics : List String
deriving DecidableEq

/-- Embeds `NewGtmDnsTrafficAllPropertiesReqDto` (pkg/gtm.go:146-152). -/
def NewGtmDnsTrafficAllPropertiesReqDto (zoneName : List String) :
    GtmDnsTrafficAllPropertiesReqDto :=
  { ObjectType := "fpdomain"
    ObjectIds := zoneName
    Metrics := ["startdatetime", "hits"] }

/-- Civil date (year, month, day) from a count of days since the Unix epoch,
the standard era-based Gregorian conversion; valid for every day count at or
after year 1 (where the shifted day count `z` is nonnegative, so Euclidean
and truncating division agree). -/
def civilFromDays (days : Int) : Int × Int × Int :=
  let z := days + 719468
  let era := z / 146097
  let doe := z - era * 146097
  let yoe := (doe - doe / 1460 + doe / 36524 - doe / 146096) / 365
  let y := yoe + era * 400
  let doy := doe - (365 * yoe + yoe / 4 - yoe / 100)
  let mp := (5 * doy + 2) / 153
  let d := doy - (153 * mp + 2) / 5 + 1
  let m := mp + (if mp < 10 then 3 else -9)
  (y + (if m ≤ 2 then 1 else 0), m, d)

/-- Zero-pads a number to two digits. -/
def pad2 (n : Int) : String :=
  if n < 10 then "0" ++ toString n else toString n

/-- Zero-pads a number to four digits. -/
def pad4 (n : Int) : String :=
  if n < 10 then "000" ++ toString n
  else if n < 100 then "00" ++ toString n
  else if n < 1000 then "0" ++ toString n
  else toString n

/-- Models Go `t.Format(time.RFC3339)` for a UTC time given as nanoseconds
since the Unix epoch: `"YYYY-MM-DDTHH:MM:SSZ"` (the RFC3339 layout carries no
fractional seconds; the aligned times fed to it sit on 5-minute or 1-hour
boundaries anyway). -/
def rfc3339UTC (tNs : Int) : String :=
  let secs := tNs / 1000000000
  let days := secs / 86400
  let sod := secs % 86400
  let ymd := civilFromDays days
  pad4 ymd.1 ++ "-" ++ pad2 ymd.2.1 ++ "-" ++ pad2 ymd.2.2 ++ "T" ++
    pad2 (sod / 3600) ++ ":" ++ pad2 ((sod % 3600) / 60) ++ ":" ++
    pad2 (sod % 60) ++ "Z"

/-- The characters Go `url.QueryEscape` leaves unescaped: alphanumerics and
`-`, `_`, `.`, `~` (space becomes `+`, handled separately). -/
def queryUnescaped (c : Char) : Bool :=
  c.isAlphanum || c = '-' || c = '_' || c = '.' || c = '~'

/-- Upper-case hexadecimal digit, as Go's escaper emits. -/
def hexUpper (n : Nat) : Char :=
  if n < 10 then Char.ofNat (48 + n) else Char.ofNat (55 + n)

/-- Models Go `url.QueryEscape` on ASCII strings (every RFC3339 rendering is
ASCII, and Go escapes byte-wise, which coincides with character-wise escaping
on ASCII): space maps to `+`, unescaped characters pass through, everything
else becomes `%XX` with upper-case hex. -/
def queryEscape (s : String) : String :=
  String.mk (s.data.foldr
    (fun c acc =>
      if c = ' ' then '+' :: acc
      else if queryUnescaped c then c :: acc
      else '%' :: hexUpper (c.toNat / 16) :: hexUpper (c.toNat % 16) :: acc)
    [])

/-- Embeds `openApiUrlTimeFormat` (pkg/gtm.go:115-117):
`url.QueryEscape(t.Format(time.RFC3339))`. -/
def openApiUrlTimeFormat (t : Int) : String :=
  queryEscape (rfc3339UTC t)

/-- Embeds `createPostOpenUrl` (pkg/gtm.go:120-122): `fmt.Sprintf` of the
`GTM_POST_URL_FORMAT` template (pkg/gtm.go:38) with the two escaped times
and the interval's string value substituted for the `%v` verbs. -/
def createPostOpenUrl (fromRounded toRounded : Int) (interval : Interval) : String :=
  "/reporting-api/v1/reports/load-balancing-dns-traffic-all-properties/versions/2/report-data?start="
    ++ openApiUrlTimeFormat fromRounded
    ++ "&end=" ++ openApiUrlTimeFormat toRounded
    ++ "&interval=" ++ interval

/-- Sanity check of the time rendering against the spec's own example:
1700000000000 ms since the epoch is 2023-11-14T22:13:20Z, whose colons
URL-escape to `%3A`. -/
theorem openApiUrlTimeFormat_sample :
    rfc3339UTC (1700000000 * 1000000000) = "2023-11-14T22:13:20Z" ∧
    openApiUrlTimeFormat (1700000000 * 1000000000) = "2023-11-14T22%3A13%3A20Z" := by
  refine ⟨by decide, by decide⟩

/-- C9: for every zone list, window and interval, the built request has POST
body exactly `{objectType: "fpdomain", objectIds: <the zone list, in order>,
metrics: ["startdatetime", "hits"]}`, and the URL is the fixed report path
with the URL-escaped RFC3339 renderings of the aligned from/to and the
interval's string name substituted into the template. -/
theorem report_request_shape (zoneNamesList : List String)
    (fromRounded toRounded : Int) (interval : Interval) :
    (NewGtmDnsTrafficAllPropertiesReqDto zoneNamesList).ObjectType = "fpdomain" ∧
    (NewGtmDnsTrafficAllPropertiesReqDto zoneNamesList).ObjectIds = zoneNamesList ∧
    (NewGtmDnsTrafficAllPropertiesReqDto zoneNamesList).Metrics =
      ["startdatetime", "hits"] ∧
    createPostOpenUrl fromRounded toRounded interval =
      "/reporting-api/v1/reports/load-balancing-dns-traffic-all-properties/versions/2/report-data?start="
        ++ queryEscape (rfc3339UTC fromRounded)
        ++ "&end=" ++ queryEscape (rfc3339UTC toRounded)
        ++ "&interval=" ++ interval :=
  ⟨rfl, rfl, rfl, rfl⟩

end Gtm
